import Mathlib

/-!
Verification development for the FINCENTER Financial Intelligence Command
Center intelligence layer. The data model and the operations below are a
shallow embedding of the behaviour documented in the repository, in
particular the detection, fusion, memory and recommendation algorithms of
QUICKSTART.md and the dashboard pages under dashboard/src/pages. Machine
floats of the original are modelled as exact rationals, and the persisted
stores as explicit lists passed through each operation.
-/

namespace FinCenter

/-- Ephemeral weak-signal record: type, subject, detail and an integer
weight, produced fresh on every correlator invocation. -/
structure Signal where
  type : String
  subject : String
  detail : String
  weight : Nat
deriving DecidableEq

/-- Canonical key of a signal, the string type:subject used for cluster
identity. -/
def signalKey (s : Signal) : String :=
  s.type ++ (":") ++ s.subject

/-- Boolean string order used to sort the canonical keys, matching the
lexicographic sort of the original. -/
def strLe (a b : String) : Bool :=
  decide (a ≤ b)

/-- Lexicographically sorted list of type:subject keys of a signal list. -/
def sortedSignalKeys (signals : List Signal) : List String :=
  (signals.map signalKey).mergeSort strLe

/-- Modelled from the spec: stands in for the serialization of the sorted
key list followed by the MD5 digest, both of which live in external
libraries outside the repository source. The identity scheme only relies
on the digest being a fixed function of the canonical sorted key list, so
any executable digest is a faithful model; this one folds the characters
into a 48-bit accumulator and renders it in hexadecimal. -/
def digestHex (keys : List String) : String :=
  let acc : Nat := keys.foldl
    (fun h s => s.data.foldl (fun h c => (h * 131 + c.toNat) % (2 ^ 48)) ((h * 33 + 7) % (2 ^ 48)))
    5381
  String.mk (Nat.toDigits 16 acc)

/-- Deterministic stress-cluster id: ws_ prefixed truncated digest of the
sorted type:subject keys. -/
def clusterId (signals : List Signal) : String :=
  ("ws_") ++ (digestHex (sortedSignalKeys signals)).take 12

/-- Stress threshold of the weak signal correlator, fixed at 4. -/
def STRESS_THRESHOLD : Nat := 4

/-- Aggregate score of a signal list: the sum of the signal weights. -/
def signalScore (signals : List Signal) : Nat :=
  (signals.map (fun s => s.weight)).sum

/-- Persisted stress cluster record. -/
structure StressCluster where
  id : String
  score : Nat
  signals : List Signal
  detected_at : Nat
  acknowledged : Bool
deriving DecidableEq

/-- Detection flow of the weak signal correlator as documented: sum the
collected signal weights; if the score reaches the stress threshold,
compute the deterministic cluster id and persist a new cluster node only
if no cluster with that exact id already exists. Below the threshold the
store is untouched. -/
def runDetection (now : Nat) (signals : List Signal) (store : List StressCluster) :
    List StressCluster :=
  let score := signalScore signals
  if STRESS_THRESHOLD ≤ score then
    let cid := clusterId signals
    if store.any (fun c => c.id == cid) then store
    else store ++ [{ id := cid, score := score, signals := signals,
                     detected_at := now, acknowledged := false }]
  else store

/-- The five candidate sources of the decision fusion engine. -/
inductive Source where
  | budget_overruns
  | overdue_invoices
  | expiring_contracts
  | episodic_patterns
  | stress_clusters
deriving DecidableEq

/-- Severity levels of a fused decision. -/
inductive Severity where
  | critical
  | warning
  | info
deriving DecidableEq

/-- Severity weight of the uniform priority formula: critical 3,
warning 2, info 1. -/
def severityWeight : Severity → ℚ
  | Severity.critical => 3
  | Severity.warning => 2
  | Severity.info => 1

/-- Rank used to break priority ties by source severity order,
critical before warning before info. -/
def severityRank : Severity → Nat
  | Severity.critical => 0
  | Severity.warning => 1
  | Severity.info => 2

/-- Ephemeral fused decision, rebuilt on every fusion call. -/
structure Decision where
  source : Source
  severity : Severity
  title : String
  description : String
  recommended_action : String
  financial_impact : ℚ
  priority_score : ℚ
deriving DecidableEq

/-- Sort predicate of the global fusion ranking: descending by
priority score, ties broken by severity rank; the underlying merge
sort is stable, which realizes the reference input order tiebreak. -/
def fusionBefore (a b : Decision) : Bool :=
  decide (b.priority_score < a.priority_score) ||
    (decide (a.priority_score = b.priority_score) &&
      decide (severityRank a.severity ≤ severityRank b.severity))

/-- Per-source fairness cap of the fusion engine, fixed at 5. -/
def PER_SOURCE_CAP : Nat := 5

/-- Global size of the fused decision feed, fixed at 20. -/
def FUSION_LIMIT : Nat := 20

/-- Combined candidate pool of one fusion call: at most the per-source
cap taken from each of the five source candidate lists. -/
def fusionCandidates (budget invoices contracts patterns clusters : List Decision) :
    List Decision :=
  budget.take PER_SOURCE_CAP ++ invoices.take PER_SOURCE_CAP ++
    contracts.take PER_SOURCE_CAP ++ patterns.take PER_SOURCE_CAP ++
    clusters.take PER_SOURCE_CAP

/-- Fusion procedure: take at most the per-source cap from each of the
five source candidate lists, concatenate, sort the combined set
descending by priority score and return the top of the feed. -/
def fuseDecisions (budget invoices contracts patterns clusters : List Decision) :
    List Decision :=
  ((fusionCandidates budget invoices contracts patterns clusters).mergeSort
    fusionBefore).take FUSION_LIMIT

/-- Whether a decision carries the overdue invoice source tag. -/
def isInvoiceSourced (d : Decision) : Bool :=
  d.source == Source.overdue_invoices

/-- Clamp of a rational to a closed interval. -/
def clampRat (x lo hi : ℚ) : ℚ :=
  max lo (min x hi)

/-- Reference amount of the overdue invoice source. -/
def INVOICE_REFERENCE : ℚ := 100000

/-- Modelled from the spec: the severity classification of an overdue
invoice inside decision_fusion.py is absent from the sources; the
documented worked example marks an invoice critical at 60 or more days
overdue, lower bands are taken as warning and then info. -/
def invoiceSeverity (days_overdue : ℚ) : Severity :=
  if 60 ≤ days_overdue then Severity.critical
  else if 30 ≤ days_overdue then Severity.warning
  else Severity.info

/-- Normalized financial impact of an overdue invoice: amount over the
source reference amount, clamped to the unit interval. -/
def invoiceFinancialImpact (amount : ℚ) : ℚ :=
  clampRat (amount / INVOICE_REFERENCE) 0 1

/-- Urgency factor of the overdue invoice source. -/
def invoiceUrgency (days_overdue : ℚ) : ℚ :=
  1 + min (days_overdue / 100) 1

/-- Urgency factor of the expiring contract source. -/
def contractUrgency (days_until_expiry : ℚ) : ℚ :=
  1 + min ((90 - days_until_expiry) / 100) 1

/-- Fixed urgency factor of the budget overrun source. -/
def budgetUrgency : ℚ := 1

/-- Fixed urgency factor of the episodic pattern source. -/
def patternUrgency : ℚ := 1

/-- Fixed urgency factor of the stress cluster source. -/
def clusterUrgency : ℚ := 1.2

/-- Uniform priority formula applied to an overdue invoice candidate. -/
def invoicePriorityScore (amount days_overdue : ℚ) : ℚ :=
  severityWeight (invoiceSeverity days_overdue) * invoiceFinancialImpact amount *
    invoiceUrgency days_overdue * 10

/-- Raw invoice entity as read from the store. -/
structure Invoice where
  id : String
  vendor : String
  amount : ℚ
  days_overdue : ℚ
deriving DecidableEq

/-- Raw contract entity as read from the store. -/
structure Contract where
  id : String
  vendor : String
  annual_value : ℚ
  days_until_expiry : ℚ
deriving DecidableEq

/-- Modelled from the spec: admission condition of the overdue
invoice source of the fusion engine, which scans invoices that are
overdue, so with a positive days_overdue. -/
def invoiceAdmitted (i : Invoice) : Bool :=
  decide (0 < i.days_overdue)

/-- Modelled from the spec: admission condition of the expiring
contract source of the fusion engine, which scans contracts inside the
90 day expiry window. -/
def contractAdmitted (c : Contract) : Bool :=
  decide (0 ≤ c.days_until_expiry) && decide (c.days_until_expiry ≤ 90)

/-- The four learned pattern types of the episodic memory. -/
inductive PatternType where
  | vendor_overbilling
  | department_overspend
  | late_payment_pattern
  | seasonal_spike
deriving DecidableEq

/-- Persisted episodic pattern record with a deterministic id built
from type and subject. -/
structure EpisodicPattern where
  id : String
  type : PatternType
  subject : String
  confidence : ℚ
  evidence_count : Nat
deriving DecidableEq

/-- Vendor overbilling rule of the episodic pattern learner: compare
the mean invoice amount of a vendor with the monthly contract value;
trigger when the mean exceeds it by more than ten percent, with
confidence growing by 0.05 per invoice from 0.5, capped at 0.95. -/
def detectVendorOverbilling (vendor : String) (amounts : List ℚ) (annual_value : ℚ) :
    Option EpisodicPattern :=
  if amounts.length = 0 then none
  else
    let avg_invoice := amounts.sum / (amounts.length : ℚ)
    let monthly_contract := annual_value / 12
    if monthly_contract * 1.10 < avg_invoice then
      some { id := ("vendor_overbilling_") ++ vendor,
             type := PatternType.vendor_overbilling,
             subject := vendor,
             confidence := min 0.95 (0.5 + (amounts.length : ℚ) * 0.05),
             evidence_count := amounts.length }
    else none

/-- The three recommendation categories. -/
inductive RecCategory where
  | cost_reduction
  | risk_mitigation
  | revenue_optimization
deriving DecidableEq

/-- Persisted recommendation record; acknowledged is the only field an
external caller may mutate. -/
structure Recommendation where
  id : String
  category : RecCategory
  title : String
  description : String
  priority_score : ℚ
  expected_impact : ℚ
  confidence : ℚ
  supporting_evidence : List String
  created_at : Nat
  acknowledged : Bool
deriving DecidableEq

/-- Modelled from the spec: engine.py is absent from the sources. A
regenerated item is upserted by its deterministic id: when a record
with the id exists its fields are replaced but an existing
acknowledged flag equal to true is preserved rather than reset;
otherwise the item is inserted. -/
def upsertRecommendation (store : List Recommendation) (r : Recommendation) :
    List Recommendation :=
  if store.any (fun old => old.id == r.id) then
    store.map (fun old =>
      if old.id == r.id then
        { r with acknowledged := old.acknowledged || r.acknowledged }
      else old)
  else store ++ [r]

/-- Modelled from the spec: regeneration upserts every generated item
into the store by deterministic id. -/
def regenerateRecommendations (store : List Recommendation)
    (generated : List Recommendation) : List Recommendation :=
  generated.foldl upsertRecommendation store

/-- Modelled from the spec: the acknowledge operation of the
recommendation engine, a total idempotent flag update by id. -/
def acknowledgeRecommendation (store : List Recommendation) (id : String) :
    List Recommendation :=
  store.map (fun r => if r.id == id then { r with acknowledged := true } else r)

/-- Recommendation record as held in the dashboard state of
RecommendationsDashboard. -/
structure RecItem where
  id : String
  category : String
  title : String
  description : String
  priority_score : ℚ
  expected_impact_eur : ℚ
  confidence : ℚ
  supporting_evidence : List String
  created_at : String
  acknowledged : Bool
deriving DecidableEq

/-- State update applied by handleAcknowledge in the recommendations
dashboard after a successful acknowledge call: map over the previous
list and set the acknowledged flag of the record whose id matches. -/
def handleAcknowledgeUpdate (id : String) (prev : List RecItem) : List RecItem :=
  prev.map (fun r => if r.id == id then { r with acknowledged := true } else r)

/-- Invoice row as held in the dashboard state of InvoicesDashboard. -/
structure InvoiceRow where
  invoice_id : String
  date : String
  vendor : String
  amount : ℚ
  status : String
  days_overdue : ℚ
deriving DecidableEq

/-- Average days overdue computed by the invoices dashboard: the sum
of days_overdue over the number of invoices when the list is
non-empty, and 0 otherwise. -/
def averageOverdue (invoices : List InvoiceRow) : ℚ :=
  if invoices.length > 0 then
    (invoices.foldl (fun sum inv => sum + inv.days_overdue) 0) / (invoices.length : ℚ)
  else 0

/-- Concrete weak signal: a budget slightly over its plan, weight 1. -/
def sigBudget : Signal :=
  { type := "budget_slightly_over", subject := "IT", detail := "8 percent over budget",
    weight := 1 }

/-- Concrete weak signal: a moderately overdue invoice, weight 1. -/
def sigInvoice : Signal :=
  { type := "invoice_moderately_overdue", subject := "INV-2024-101",
    detail := "22 days overdue", weight := 1 }

/-- Concrete weak signal: learned episodic patterns exist, weight 2. -/
def sigPattern : Signal :=
  { type := "new_episodic_pattern", subject := "memory",
    detail := "patterns learned", weight := 2 }

/-- Signal set of the re-run scenario, with weights summing to the
stress threshold. -/
def rerunSignals : List Signal :=
  [sigBudget, sigInvoice, sigPattern]

/-- Pre-existing stress cluster carrying the id that detection
recomputes for the re-run signal set, with stale score and timestamp
fields. -/
def staleCluster : StressCluster :=
  { id := clusterId rerunSignals, score := 999, signals := [],
    detected_at := 0, acknowledged := false }

/-- Concrete overdue invoice decision used in the fusion witness. -/
def wInvoiceDecision : Decision :=
  { source := Source.overdue_invoices, severity := Severity.critical,
    title := "Overdue invoice: Digital Agency", description := "INV-2024-101",
    recommended_action := "Contact vendor to resolve payment.",
    financial_impact := 85000, priority_score := 48.45 }

/-- Concrete budget overrun decision used in the fusion witness. -/
def wBudgetDecision : Decision :=
  { source := Source.budget_overruns, severity := Severity.critical,
    title := "Budget overrun: IT", description := "IT",
    recommended_action := "Freeze non-critical purchases.",
    financial_impact := 847200, priority_score := 54 }

/-- Concrete expiring contract decision used in the fusion witness. -/
def wContractDecision : Decision :=
  { source := Source.expiring_contracts, severity := Severity.warning,
    title := "Contract expiring: TechCorp", description := "CTR-ENG-001",
    recommended_action := "Initiate renewal negotiations.",
    financial_impact := 240000, priority_score := 31.2 }

/-- Concrete episodic pattern decision used in the fusion witness. -/
def wPatternDecision : Decision :=
  { source := Source.episodic_patterns, severity := Severity.warning,
    title := "Pattern: vendor overbilling", description := "Digital Agency",
    recommended_action := "Renegotiate contract.",
    financial_impact := 0, priority_score := 19 }

/-- Concrete stress cluster decision used in the fusion witness. -/
def wClusterDecision : Decision :=
  { source := Source.stress_clusters, severity := Severity.info,
    title := "Stress cluster", description := "ws cluster",
    recommended_action := "Review cluster.",
    financial_impact := 0, priority_score := 4.8 }

/-- Concrete overdue invoice entity of the urgency witness. -/
def wInvoice : Invoice :=
  { id := "INV-2024-101", vendor := "Digital Agency", amount := 85000,
    days_overdue := 90 }

/-- Concrete expiring contract entity of the urgency witness. -/
def wContract : Contract :=
  { id := "CTR-ENG-001", vendor := "TechCorp", annual_value := 240000,
    days_until_expiry := 30 }

/-- Stored recommendation of the acknowledgement witness, not yet
acknowledged. -/
def wRecStored : Recommendation :=
  { id := "rec_cost_IT", category := RecCategory.cost_reduction,
    title := "Reduce spend in IT", description := "Budget overrun above ten percent",
    priority_score := 80, expected_impact := 50000, confidence := 0.8,
    supporting_evidence := ["IT overspent 4 years"], created_at := 0,
    acknowledged := false }

/-- Regenerated recommendation of the acknowledgement witness: the
same deterministic id recomputed from identical facts, fresh fields,
acknowledged reset to false by generation. -/
def wRecRegen : Recommendation :=
  { id := "rec_cost_IT", category := RecCategory.cost_reduction,
    title := "Reduce spend in IT", description := "Budget overrun above ten percent",
    priority_score := 82, expected_impact := 50000, confidence := 0.8,
    supporting_evidence := ["IT overspent 4 years"], created_at := 1,
    acknowledged := false }

/-- Dashboard recommendation item already acknowledged. -/
def wItemAck : RecItem :=
  { id := "rec_cost_IT", category := "cost_reduction", title := "Reduce spend in IT",
    description := "", priority_score := 80, expected_impact_eur := 50000,
    confidence := 0.8, supporting_evidence := [], created_at := "2026-02-17",
    acknowledged := true }

/-- Dashboard recommendation item with a different id. -/
def wItemOther : RecItem :=
  { id := "rec_invoice_INV-2022-001", category := "risk_mitigation",
    title := "Resolve overdue invoice", description := "", priority_score := 60,
    expected_impact_eur := 12000, confidence := 0.7, supporting_evidence := [],
    created_at := "2026-02-17", acknowledged := false }

/-- First invoice row of the average witness. -/
def wRowA : InvoiceRow :=
  { invoice_id := "INV-2022-001", date := "2022-03-01", vendor := "TechCorp",
    amount := 12000, status := "UNPAID", days_overdue := 10 }

/-- Second invoice row of the average witness. -/
def wRowB : InvoiceRow :=
  { invoice_id := "INV-2022-002", date := "2022-04-01", vendor := "TechCorp",
    amount := 8000, status := "UNPAID", days_overdue := 20 }

/-- The boolean key order is transitive. -/
theorem strLe_trans : ∀ a b c : String, strLe a b = true → strLe b c = true →
    strLe a c = true := by
  intro a b c hab hbc
  simp only [strLe, decide_eq_true_eq] at *
  exact le_trans hab hbc

/-- The boolean key order is total. -/
theorem strLe_total : ∀ a b : String, (strLe a b || strLe b a) = true := by
  intro a b
  simp only [strLe, Bool.or_eq_true, decide_eq_true_eq]
  exact le_total a b

/-- The canonical key list of a signal list is sorted. -/
theorem sortedSignalKeys_sorted (s : List Signal) :
    List.Sorted (fun a b : String => a ≤ b) (sortedSignalKeys s) := by
  have h := List.sorted_mergeSort strLe_trans strLe_total (s.map signalKey)
  exact h.imp (fun hab => by simpa [strLe] using hab)

/-- C1: for a fixed set of signals the stress-cluster id is invariant
under permutation of the input signal list, because the id is a digest
of the lexicographically sorted list of type:subject keys. -/
theorem cluster_id_perm_invariant (s1 s2 : List Signal) (h : s1.Perm s2) :
    clusterId s1 = clusterId s2 := by
  have hperm : (sortedSignalKeys s1).Perm (sortedSignalKeys s2) := by
    unfold sortedSignalKeys
    exact ((List.mergeSort_perm _ _).trans (h.map signalKey)).trans
      (List.mergeSort_perm _ _).symm
  have hkeys : sortedSignalKeys s1 = sortedSignalKeys s2 :=
    List.eq_of_perm_of_sorted hperm (sortedSignalKeys_sorted s1) (sortedSignalKeys_sorted s2)
  unfold clusterId
  rw [hkeys]

/-- Witness for C1: the cluster id of a concrete two-signal list does
not change when the two signals are swapped. -/
theorem cluster_id_perm_invariant_witness :
    clusterId [sigBudget, sigPattern] = clusterId [sigPattern, sigBudget] :=
  cluster_id_perm_invariant _ _ (List.Perm.swap sigPattern sigBudget [])

/-- C2: the stress threshold is fixed at 4, the empty signal set
scores 0 and leaves the store unchanged, running below the threshold
leaves the store unchanged, and starting from a clusterless store a
cluster is produced exactly when the score reaches the threshold. -/
theorem stress_threshold_boundary (now : Nat) (signals : List Signal)
    (store : List StressCluster) :
    STRESS_THRESHOLD = 4 ∧ signalScore [] = 0 ∧
      runDetection now [] store = store ∧
      (STRESS_THRESHOLD ≤ signalScore signals ∨ runDetection now signals store = store) ∧
      (runDetection now signals []).length =
        (if STRESS_THRESHOLD ≤ signalScore signals then 1 else 0) := by
  refine ⟨rfl, rfl, ?_, ?_, ?_⟩
  · simp [runDetection, signalScore, STRESS_THRESHOLD]
  · by_cases h : STRESS_THRESHOLD ≤ signalScore signals
    · exact Or.inl h
    · refine Or.inr ?_
      simp [runDetection, h]
  · by_cases h : STRESS_THRESHOLD ≤ signalScore signals
    · simp [runDetection, h]
    · simp [runDetection, h]

/-- The fusion sort predicate is transitive. -/
theorem fusionBefore_trans : ∀ a b c : Decision, fusionBefore a b = true →
    fusionBefore b c = true → fusionBefore a c = true := by
  intro a b c hab hbc
  simp only [fusionBefore, Bool.or_eq_true, Bool.and_eq_true, decide_eq_true_eq] at *
  rcases hab with h1 | ⟨h1, h2⟩ <;> rcases hbc with h3 | ⟨h3, h4⟩
  · exact Or.inl (h3.trans h1)
  · refine Or.inl ?_
    rw [← h3]
    exact h1
  · refine Or.inl ?_
    rw [h1]
    exact h3
  · exact Or.inr ⟨h1.trans h3, le_trans h2 h4⟩

/-- The fusion sort predicate is total. -/
theorem fusionBefore_total : ∀ a b : Decision, (fusionBefore a b || fusionBefore b a) = true := by
  intro a b
  simp only [fusionBefore, Bool.or_eq_true, Bool.and_eq_true, decide_eq_true_eq]
  rcases lt_trichotomy a.priority_score b.priority_score with h | h | h
  · exact Or.inr (Or.inl h)
  · rcases le_total (severityRank a.severity) (severityRank b.severity) with hr | hr
    · exact Or.inl (Or.inr ⟨h, hr⟩)
    · exact Or.inr (Or.inr ⟨h.symm, hr⟩)
  · exact Or.inl (Or.inl h)

/-- The fusion sort predicate only places a decision before another of
lower or equal priority score. -/
theorem fusionBefore_le (a b : Decision) (h : fusionBefore a b = true) :
    b.priority_score ≤ a.priority_score := by
  simp only [fusionBefore, Bool.or_eq_true, Bool.and_eq_true, decide_eq_true_eq] at h
  rcases h with h | ⟨h, _⟩
  · exact h.le
  · exact h.ge

/-- A capped source slice contributes no invoice-sourced candidates
when the source list contains none. -/
theorem countP_take_eq_zero (l : List Decision)
    (hl : ∀ d ∈ l, d.source ≠ Source.overdue_invoices) :
    List.countP isInvoiceSourced (l.take PER_SOURCE_CAP) = 0 := by
  refine List.countP_eq_zero.mpr ?_
  intro d hd
  have hne : d.source ≠ Source.overdue_invoices :=
    hl d ((List.take_sublist _ _).subset hd)
  simp [isInvoiceSourced, hne]

/-- C3: the fused decision feed contains at most 20 decisions, is
sorted descending by priority score, and when only the invoice source
list carries invoice-sourced candidates the feed contains at most 5 of
them, however many candidates the invoice source offers. -/
theorem fusion_per_source_cap (budget invoices contracts patterns clusters : List Decision)
    (hb : ∀ d ∈ budget, d.source ≠ Source.overdue_invoices)
    (hc : ∀ d ∈ contracts, d.source ≠ Source.overdue_invoices)
    (hp : ∀ d ∈ patterns, d.source ≠ Source.overdue_invoices)
    (hs : ∀ d ∈ clusters, d.source ≠ Source.overdue_invoices) :
    (fuseDecisions budget invoices contracts patterns clusters).length ≤ FUSION_LIMIT ∧
      List.countP isInvoiceSourced
          (fuseDecisions budget invoices contracts patterns clusters) ≤ PER_SOURCE_CAP ∧
      List.Pairwise (fun a b => b.priority_score ≤ a.priority_score)
        (fuseDecisions budget invoices contracts patterns clusters) := by
  refine ⟨?_, ?_, ?_⟩
  · show (List.take FUSION_LIMIT _).length ≤ FUSION_LIMIT
    rw [List.length_take]
    exact min_le_left _ _
  · have h1 : List.countP isInvoiceSourced
        (fuseDecisions budget invoices contracts patterns clusters) ≤
          List.countP isInvoiceSourced
            ((fusionCandidates budget invoices contracts patterns clusters).mergeSort
              fusionBefore) :=
      List.Sublist.countP_le _ (List.take_sublist _ _)
    have h2 : List.countP isInvoiceSourced
        ((fusionCandidates budget invoices contracts patterns clusters).mergeSort
          fusionBefore) =
          List.countP isInvoiceSourced
            (fusionCandidates budget invoices contracts patterns clusters) :=
      (List.mergeSort_perm _ _).countP_eq _
    have hinv : List.countP isInvoiceSourced (invoices.take PER_SOURCE_CAP) ≤ PER_SOURCE_CAP := by
      calc List.countP isInvoiceSourced (invoices.take PER_SOURCE_CAP)
          ≤ (invoices.take PER_SOURCE_CAP).length := List.countP_le_length _
        _ ≤ PER_SOURCE_CAP := by
            rw [List.length_take]
            exact min_le_left _ _
    have hcand : List.countP isInvoiceSourced
        (fusionCandidates budget invoices contracts patterns clusters) ≤ PER_SOURCE_CAP := by
      simp only [fusionCandidates, List.countP_append, countP_take_eq_zero budget hb,
        countP_take_eq_zero contracts hc, countP_take_eq_zero patterns hp,
        countP_take_eq_zero clusters hs]
      simpa using hinv
    exact h1.trans (le_of_eq_of_le h2 hcand)
  · have hp1 : List.Pairwise (fun a b => fusionBefore a b = true)
        ((fusionCandidates budget invoices contracts patterns clusters).mergeSort
          fusionBefore) :=
      List.sorted_mergeSort fusionBefore_trans fusionBefore_total _
    have hp2 : List.Pairwise (fun a b : Decision => b.priority_score ≤ a.priority_score)
        ((fusionCandidates budget invoices contracts patterns clusters).mergeSort
          fusionBefore) :=
      hp1.imp (fun h => fusionBefore_le _ _ h)
    exact hp2.sublist (List.take_sublist _ _)

/-- Witness for C3: with 50 overdue-invoice candidates and one
candidate from every other source, the fused top-20 feed holds at most
5 invoice-sourced items and at most 20 items overall. -/
theorem fusion_per_source_cap_witness :
    (fuseDecisions [wBudgetDecision] (List.replicate 50 wInvoiceDecision)
        [wContractDecision] [wPatternDecision] [wClusterDecision]).length ≤ FUSION_LIMIT ∧
      List.countP isInvoiceSourced
          (fuseDecisions [wBudgetDecision] (List.replicate 50 wInvoiceDecision)
            [wContractDecision] [wPatternDecision] [wClusterDecision]) ≤ PER_SOURCE_CAP := by
  have h := fusion_per_source_cap [wBudgetDecision] (List.replicate 50 wInvoiceDecision)
    [wContractDecision] [wPatternDecision] [wClusterDecision]
    (by decide) (by decide) (by decide) (by decide)
  exact ⟨h.1, h.2.1⟩

/-- C5 amended: when a stress cluster with the recomputed id already
exists, a detection run returns the store unchanged, whatever the
score: the stable id prevents a duplicate record, but the existing
record is left untouched rather than having its fields refreshed. -/
theorem cluster_skip_if_exists (now : Nat) (signals : List Signal)
    (store : List StressCluster) (h : ∃ c ∈ store, c.id = clusterId signals) :
    runDetection now signals store = store := by
  obtain ⟨c0, hc0, hid0⟩ := h
  unfold runDetection
  by_cases hsc : STRESS_THRESHOLD ≤ signalScore signals
  · have hany : store.any (fun c => c.id == clusterId signals) = true :=
      List.any_eq_true.mpr ⟨c0, hc0, by simp [hid0]⟩
    simp [hsc, hany]
  · simp [hsc]

/-- Witness for the amended C5 at a concrete store that already holds
the recomputed cluster id. -/
theorem cluster_skip_if_exists_witness :
    runDetection 1 rerunSignals [staleCluster] = [staleCluster] :=
  cluster_skip_if_exists 1 rerunSignals [staleCluster]
    ⟨staleCluster, List.mem_singleton.mpr rfl, rfl⟩

/-- Counterexample to C5 as stated: re-running detection over a store
whose cluster carries the recomputed id returns the store unchanged,
so the stale score 999 and stale timestamp 0 survive even though the
run recomputed score 4 at time 1 — fields are not refreshed, the
existing record is left untouched. -/
theorem cluster_update_counterexample :
    runDetection 1 rerunSignals [staleCluster] = [staleCluster] ∧
      staleCluster.score = 999 ∧ staleCluster.detected_at = 0 ∧
      signalScore rerunSignals = STRESS_THRESHOLD := by
  refine ⟨?_, rfl, rfl, rfl⟩
  have hany : ([staleCluster].any (fun c => c.id == clusterId rerunSignals)) = true := by
    simp [staleCluster]
  have hsc : STRESS_THRESHOLD ≤ signalScore rerunSignals := by decide
  simp [runDetection, hsc, hany]

/-- One upsert step keeps every record carrying the given id
acknowledged, and keeps such a record present. -/
theorem upsert_keeps_ack (id : String) (g : Recommendation) (store : List Recommendation)
    (hex : ∃ r ∈ store, r.id = id)
    (hall : ∀ r ∈ store, r.id = id → r.acknowledged = true) :
    (∃ r ∈ upsertRecommendation store g, r.id = id) ∧
      (∀ r ∈ upsertRecommendation store g, r.id = id → r.acknowledged = true) := by
  unfold upsertRecommendation
  by_cases hany : store.any (fun old => old.id == g.id) = true
  · rw [if_pos hany]
    constructor
    · obtain ⟨r0, hr0, hid0⟩ := hex
      by_cases h0 : (r0.id == g.id) = true
      · refine ⟨{ g with acknowledged := r0.acknowledged || g.acknowledged }, ?_, ?_⟩
        · exact List.mem_map.mpr ⟨r0, hr0, by rw [if_pos h0]⟩
        · show g.id = id
          have h1 : r0.id = g.id := by simpa using h0
          rw [← h1]
          exact hid0
      · refine ⟨r0, ?_, hid0⟩
        exact List.mem_map.mpr ⟨r0, hr0, by rw [if_neg h0]⟩
    · intro r hr hid
      obtain ⟨old, hold, hmap⟩ := List.mem_map.mp hr
      by_cases h0 : (old.id == g.id) = true
      · rw [if_pos h0] at hmap
        have h1 : old.id = g.id := by simpa using h0
        have holdid : old.id = id := by
          rw [← hmap] at hid
          rw [h1]
          exact hid
        have hackd : old.acknowledged = true := hall old hold holdid
        rw [← hmap]
        simp [hackd]
      · rw [if_neg h0] at hmap
        exact hall r (hmap ▸ hold) hid
  · rw [if_neg hany]
    have hgne : g.id ≠ id := by
      intro hg
      apply hany
      obtain ⟨r0, hr0, hid0⟩ := hex
      exact List.any_eq_true.mpr ⟨r0, hr0, by simp [hid0, hg]⟩
    constructor
    · obtain ⟨r0, hr0, hid0⟩ := hex
      exact ⟨r0, List.mem_append_left _ hr0, hid0⟩
    · intro r hr hid
      rcases List.mem_append.mp hr with hmem | hmem
      · exact hall r hmem hid
      · have hrg : r = g := by simpa using hmem
        exact absurd (hrg ▸ hid) hgne

/-- Regeneration keeps every record carrying the given id
acknowledged, for any generated list. -/
theorem regen_keeps_ack (id : String) (generated : List Recommendation) :
    ∀ store : List Recommendation, (∃ r ∈ store, r.id = id) →
      (∀ r ∈ store, r.id = id → r.acknowledged = true) →
      ∀ r ∈ regenerateRecommendations store generated, r.id = id → r.acknowledged = true := by
  induction generated with
  | nil =>
    intro store _ hall
    simpa [regenerateRecommendations] using hall
  | cons g gs ih =>
    intro store hex hall
    have h := upsert_keeps_ack id g store hex hall
    have hstep : regenerateRecommendations store (g :: gs)
        = regenerateRecommendations (upsertRecommendation store g) gs := rfl
    rw [hstep]
    exact ih (upsertRecommendation store g) h.1 h.2

/-- Acknowledging an id sets the flag on every matching stored record
and keeps a matching record present. -/
theorem acknowledge_sets (store : List Recommendation) (id : String)
    (hex : ∃ r ∈ store, r.id = id) :
    (∃ r ∈ acknowledgeRecommendation store id, r.id = id) ∧
      (∀ r ∈ acknowledgeRecommendation store id, r.id = id → r.acknowledged = true) := by
  constructor
  · obtain ⟨r0, hr0, hid0⟩ := hex
    refine ⟨{ r0 with acknowledged := true }, ?_, hid0⟩
    unfold acknowledgeRecommendation
    exact List.mem_map.mpr ⟨r0, hr0, by rw [if_pos (by simp [hid0])]⟩
  · intro r hr hid
    unfold acknowledgeRecommendation at hr
    obtain ⟨old, hold, hmap⟩ := List.mem_map.mp hr
    by_cases h0 : (old.id == id) = true
    · rw [if_pos h0] at hmap
      rw [← hmap]
    · rw [if_neg h0] at hmap
      rw [← hmap] at hid
      exact absurd hid (by simpa using h0)

/-- C4: after acknowledging a stored recommendation, regenerating from
identical source facts leaves every record with that deterministic id
acknowledged, and the acknowledge operation is an idempotent no-op on
an already-acknowledged store. -/
theorem acknowledgement_persistence (store generated : List Recommendation) (id : String)
    (hmem : ∃ r ∈ store, r.id = id) :
    ((regenerateRecommendations (acknowledgeRecommendation store id) generated).all
        (fun r => !(r.id == id) || r.acknowledged)) = true ∧
      acknowledgeRecommendation (acknowledgeRecommendation store id) id
        = acknowledgeRecommendation store id := by
  constructor
  · have h := acknowledge_sets store id hmem
    have hall := regen_keeps_ack id generated _ h.1 h.2
    refine List.all_eq_true.mpr ?_
    intro r hr
    by_cases hid : r.id = id
    · have := hall r hr hid
      simp [this]
    · simp [hid]
  · unfold acknowledgeRecommendation
    rw [List.map_map]
    apply List.map_congr_left
    intro r _
    by_cases h : (r.id == id) = true
    · simp only [Function.comp_apply, if_pos h]
    · simp only [Function.comp_apply, if_neg h]

/-- Witness for C4: a concrete stored recommendation is acknowledged,
regeneration of the same item keeps it acknowledged, and a second
acknowledge is a no-op. -/
theorem acknowledgement_persistence_witness :
    ((regenerateRecommendations (acknowledgeRecommendation [wRecStored] ("rec_cost_IT"))
        [wRecRegen]).all (fun r => !(r.id == ("rec_cost_IT")) || r.acknowledged)) = true ∧
      acknowledgeRecommendation
          (acknowledgeRecommendation [wRecStored] ("rec_cost_IT")) ("rec_cost_IT")
        = acknowledgeRecommendation [wRecStored] ("rec_cost_IT") :=
  acknowledgement_persistence [wRecStored] [wRecRegen] ("rec_cost_IT")
    ⟨wRecStored, List.mem_singleton.mpr rfl, rfl⟩

/-- C6: a vendor with 9 invoices averaging 12847 against a contract of
annual value 110400, hence monthly value 9200, triggers a vendor
overbilling pattern since 12847 exceeds 9200 times 1.10, with
confidence min 0.95 of 0.5 plus 9 times 0.05, which is 0.95. -/
theorem vendor_overbilling_scenario :
    detectVendorOverbilling ("X") (List.replicate 9 12847) 110400 =
        some { id := ("vendor_overbilling_X"), type := PatternType.vendor_overbilling,
               subject := "X", confidence := 0.95, evidence_count := 9 } ∧
      min (0.95 : ℚ) (0.5 + 9 * 0.05) = 0.95 ∧
      (110400 : ℚ) / 12 = 9200 ∧ (9200 : ℚ) * 1.10 < 12847 := by
  have hmin : min (0.95 : ℚ) (0.5 + 9 * 0.05) = 0.95 := by
    rw [min_eq_left (by norm_num)]
  refine ⟨?_, hmin, by norm_num, by norm_num⟩
  simp only [detectVendorOverbilling, List.length_replicate, List.sum_replicate,
    smul_eq_mul, Nat.cast_ofNat, hmin]
  norm_num
  rfl

/-- C7: a critical overdue invoice of amount 85000 at 90 days overdue
gets severity weight 3, financial impact 0.85, urgency factor 1.9 and
priority score exactly 48.45 under the uniform fusion formula. -/
theorem fusion_priority_scenario :
    severityWeight (invoiceSeverity 90) = 3 ∧
      invoiceFinancialImpact 85000 = 0.85 ∧
      invoiceUrgency 90 = 1.9 ∧
      invoicePriorityScore 85000 90 = 48.45 := by
  have hsev : invoiceSeverity 90 = Severity.critical := by
    unfold invoiceSeverity
    rw [if_pos (show (60 : ℚ) ≤ 90 by norm_num)]
  have himp : invoiceFinancialImpact 85000 = 0.85 := by
    unfold invoiceFinancialImpact clampRat INVOICE_REFERENCE
    rw [min_eq_left (by norm_num), max_eq_right (by norm_num)]
    norm_num
  have hurg : invoiceUrgency 90 = 1.9 := by
    unfold invoiceUrgency
    rw [min_eq_left (by norm_num)]
    norm_num
  refine ⟨by rw [hsev]; rfl, himp, hurg, ?_⟩
  unfold invoicePriorityScore
  rw [hsev, himp, hurg]
  norm_num [severityWeight]

/-- C8: for every admitted candidate of every source the urgency
factor of the fusion priority formula lies in the closed interval from
1 to 2; in particular for every contract inside the expiry window of
the expiring contract source. -/
theorem urgency_factor_bounds (i : Invoice) (c : Contract)
    (hi : invoiceAdmitted i = true) (hc : contractAdmitted c = true) :
    (1 ≤ invoiceUrgency i.days_overdue ∧ invoiceUrgency i.days_overdue ≤ 2) ∧
      (1 ≤ contractUrgency c.days_until_expiry ∧ contractUrgency c.days_until_expiry ≤ 2) ∧
      (1 ≤ budgetUrgency ∧ budgetUrgency ≤ 2) ∧
      (1 ≤ patternUrgency ∧ patternUrgency ≤ 2) ∧
      (1 ≤ clusterUrgency ∧ clusterUrgency ≤ 2) := by
  simp only [invoiceAdmitted, contractAdmitted, Bool.and_eq_true, decide_eq_true_eq] at hi hc
  obtain ⟨hc1, hc2⟩ := hc
  refine ⟨⟨?_, ?_⟩, ⟨?_, ?_⟩, by norm_num [budgetUrgency], by norm_num [patternUrgency],
    by norm_num [clusterUrgency]⟩
  · have h0 : (0 : ℚ) ≤ min (i.days_overdue / 100) 1 :=
      le_min (div_nonneg hi.le (by norm_num)) (by norm_num)
    unfold invoiceUrgency
    linarith
  · have h1 : min (i.days_overdue / 100) 1 ≤ 1 := min_le_right _ _
    unfold invoiceUrgency
    linarith
  · have h0 : (0 : ℚ) ≤ min ((90 - c.days_until_expiry) / 100) 1 :=
      le_min (div_nonneg (by linarith) (by norm_num)) (by norm_num)
    unfold contractUrgency
    linarith
  · have h1 : min ((90 - c.days_until_expiry) / 100) 1 ≤ 1 := min_le_right _ _
    unfold contractUrgency
    linarith

/-- Witness for C8 at a concrete admitted invoice and a concrete
contract inside the expiry window. -/
theorem urgency_factor_bounds_witness :
    (1 ≤ invoiceUrgency wInvoice.days_overdue ∧ invoiceUrgency wInvoice.days_overdue ≤ 2) ∧
      (1 ≤ contractUrgency wContract.days_until_expiry ∧
        contractUrgency wContract.days_until_expiry ≤ 2) ∧
      (1 ≤ budgetUrgency ∧ budgetUrgency ≤ 2) ∧
      (1 ≤ patternUrgency ∧ patternUrgency ≤ 2) ∧
      (1 ≤ clusterUrgency ∧ clusterUrgency ≤ 2) :=
  urgency_factor_bounds wInvoice wContract (by decide) (by decide)

/-- C9: the dashboard acknowledge update relates the previous and the
new recommendation list pointwise, changing exactly the acknowledged
flag of the records whose id matches and nothing else, and applying
the same update twice equals applying it once. -/
theorem handle_acknowledge_frame (id : String) (prev : List RecItem) :
    List.Forall₂
        (fun r s =>
          (r.id = id → s = { r with acknowledged := true }) ∧ (r.id ≠ id → s = r))
        prev (handleAcknowledgeUpdate id prev) ∧
      handleAcknowledgeUpdate id (handleAcknowledgeUpdate id prev)
        = handleAcknowledgeUpdate id prev := by
  constructor
  · induction prev with
    | nil => exact List.Forall₂.nil
    | cons a t ih =>
      refine List.Forall₂.cons ⟨?_, ?_⟩ ih
      · intro h
        simp [handleAcknowledgeUpdate, h]
      · intro h
        simp [handleAcknowledgeUpdate, h]
  · unfold handleAcknowledgeUpdate
    rw [List.map_map]
    apply List.map_congr_left
    intro r _
    by_cases h : (r.id == id) = true
    · simp only [Function.comp_apply, if_pos h]
    · simp only [Function.comp_apply, if_neg h]

/-- Witness for C9: applying the concrete acknowledge update twice to
a concrete two-item list equals applying it once. -/
theorem handle_acknowledge_frame_witness :
    handleAcknowledgeUpdate ("rec_cost_IT")
        (handleAcknowledgeUpdate ("rec_cost_IT") [wItemAck, wItemOther])
      = handleAcknowledgeUpdate ("rec_cost_IT") [wItemAck, wItemOther] :=
  (handle_acknowledge_frame ("rec_cost_IT") [wItemAck, wItemOther]).2

/-- Folding addition of the days overdue equals the sum of the mapped
days, for any starting accumulator. -/
theorem foldl_add_days (l : List InvoiceRow) :
    ∀ init : ℚ, l.foldl (fun sum inv => sum + inv.days_overdue) init
      = init + (l.map (fun i => i.days_overdue)).sum := by
  induction l with
  | nil =>
    intro init
    simp
  | cons a t ih =>
    intro init
    simp only [List.foldl_cons, List.map_cons, List.sum_cons, ih]
    ring

/-- C10: the average days overdue of the invoices dashboard is total:
it returns 0 on the empty list, and on a non-empty list it is the sum
of the days overdue divided by the number of invoices. -/
theorem average_overdue_total (invoices : List InvoiceRow) (h : invoices ≠ []) :
    averageOverdue [] = 0 ∧
      averageOverdue invoices * (invoices.length : ℚ)
        = (invoices.map (fun i => i.days_overdue)).sum := by
  refine ⟨by norm_num [averageOverdue], ?_⟩
  have hlen : 0 < invoices.length := List.length_pos.mpr h
  have hne : ((invoices.length : ℚ)) ≠ 0 := by
    exact_mod_cast Nat.pos_iff_ne_zero.mp hlen
  unfold averageOverdue
  rw [if_pos hlen, foldl_add_days, zero_add]
  exact div_mul_cancel₀ _ hne

/-- Witness for C10 at a concrete two-invoice list. -/
theorem average_overdue_total_witness :
    averageOverdue [] = 0 ∧
      averageOverdue [wRowA, wRowB] * (([wRowA, wRowB] : List InvoiceRow).length : ℚ)
        = (([wRowA, wRowB] : List InvoiceRow).map (fun i => i.days_overdue)).sum :=
  average_overdue_total [wRowA, wRowB] (List.cons_ne_nil _ _)

end FinCenter
